import Mathlib

/-!
# Verification of the transfer-file repository

Shallow embedding of the core components of the peer-to-peer file transfer
application, together with proofs about the claims of its specification:

* the room identifier codec (`src/app/lib/room.ts`, `src/app/lib/webrtc.ts`);
* the signaling relay routes (`create`, `publish`, `poll`) over the TTL
  key-value store;
* the chunked transfer protocol: sender (`PhoneClient.tsx`, `sendFile`) and
  receiver (`computer/page.tsx`, `handleDataMessage` / `handleReceiveDone`);
* the sender's backpressure discipline (`waitForBufferedLow`).

Bytes are modelled as `Nat`, files as `List Nat`, machine integers do not
overflow in the ranges exercised by the code (sizes and counters are exact
in JavaScript up to 2^53).
-/

namespace TransferFile

/-! ## Room identifier codec

From `src/app/lib/room.ts`:

```ts
export const ROOM_ID_REGEX = /^[A-Z0-9]{6}$/;
export function isValidRoomId(roomId: string): boolean {
  return ROOM_ID_REGEX.test(roomId);
}
const ROOM_ALPHABET = "ABCDEFGHJKLMNPQRSTUVWXYZ0123456789";
export function generateRoomId(): string {
  const bytes = new Uint8Array(6);
  crypto.getRandomValues(bytes);
  let result = "";
  for (let i = 0; i < bytes.length; i += 1) {
    result += ROOM_ALPHABET[bytes[i] % ROOM_ALPHABET.length];
  }
  return result;
}
```
-/

/-- The regex `/^[A-Z0-9]{6}$/` of `room.ts` / `webrtc.ts`: exactly six
characters, each an ASCII uppercase letter or a digit. -/
def isValidRoomId (s : String) : Bool :=
  s.length == 6 &&
    s.data.all (fun c => ('A' ≤ c && c ≤ 'Z') || ('0' ≤ c && c ≤ '9'))

/-- The 34-symbol alphabet of `room.ts` (no `I`, no `O`). -/
def ROOM_ALPHABET : String := "ABCDEFGHJKLMNPQRSTUVWXYZ0123456789"

/-- Indexing `ROOM_ALPHABET[b % ROOM_ALPHABET.length]`: the symbol the generator
produces from one random byte `b`. -/
def roomSymbol (b : Nat) : Char :=
  ROOM_ALPHABET.data.getD (b % ROOM_ALPHABET.length) 'A'

/-- The generator `generateRoomId`, with the output of `crypto.getRandomValues` (one byte
per position, each in `0..255`) passed in explicitly. -/
def generateRoomId (bytes : List Nat) : String :=
  String.mk (bytes.map roomSymbol)

/-- Probability, under a byte uniformly distributed over `0..255`, that the
generator emits the symbol `c` at a given position. -/
def symbolProb (c : Char) : ℚ :=
  (((Finset.range 256).filter (fun b => roomSymbol b = c)).card : ℚ) / 256

/-- The validity predicate as the specification words it: after
case-normalization to uppercase, exactly 6 characters all drawn from the
34-symbol unambiguous alphabet.  Written from the spec, for comparison with
`isValidRoomId`. -/
def specValidRoomId (s : String) : Bool :=
  (s.data.map Char.toUpper).length == 6 &&
    (s.data.map Char.toUpper).all (fun c => ROOM_ALPHABET.data.contains c)

/-! ## The key-value store and JSON values

The routes depend on the external store only through `kv.get(key)` and
`kv.set(key, value, { ex: ttlSeconds })`.  Values read back from the store
are JavaScript values: strings (possibly malformed JSON), objects, or other
primitives.  JSON text is modelled abstractly: a string either encodes a
JSON value (`JStr.encodes v`, and `JSON.parse` recovers `v`) or parsing it
yields nothing usable (`JStr.unparsable`, covering invalid JSON and the
literal `null`); the encoding of a value is never the empty string. -/

/-- A JavaScript value as it comes out of the store or out of `JSON.parse`.
`legacy` is an object with (optional) `offer` / `answer` fields — the
historical combined room record; `desc` an object shaped like a session
description; `otherObj` any other object; `prim` a non-object primitive
(number, boolean, string), tagged with its truthiness. -/
inductive JVal where
  | desc (sdpType : String) (sdp : String)
  | legacy (offer : Option JVal) (answer : Option JVal)
  | otherObj (tag : Nat)
  | prim (truthy : Bool)

/-- JSON text: either the canonical encoding of a value, or a string from
which `JSON.parse` produces nothing usable (malformed JSON, or the literal
`null`).  `nonempty` records whether the string is truthy. -/
inductive JStr where
  | encodes (v : JVal)
  | unparsable (tag : Nat) (nonempty : Bool)

/-- Parsing (`JSON.parse`) a string: recover the encoded value, or nothing. -/
def parseJ : JStr → Option JVal
  | .encodes v => some v
  | .unparsable _ _ => none

/-- Truthiness of a string (the empty string is falsy; encodings of values
are never empty). -/
def jstrTruthy : JStr → Bool
  | .encodes _ => true
  | .unparsable _ ne => ne

/-- Objecthood test `typeof v === "object"` for a parsed value. -/
def JVal.isObject : JVal → Bool
  | .desc _ _ => true
  | .legacy _ _ => true
  | .otherObj _ => true
  | .prim _ => false

/-- Truthiness of a parsed value (objects are truthy). -/
def JVal.truthy : JVal → Bool
  | .prim t => t
  | _ => true

/-- A value held in the store, as `kv.get` returns it: a string or a
non-string JavaScript value. -/
inductive KVVal where
  | str (s : JStr)
  | val (v : JVal)

/-- Truthiness of `await kv.get(key)` (`undefined`/`null` when absent). -/
def kvTruthy : Option KVVal → Bool
  | none => false
  | some (.str s) => jstrTruthy s
  | some (.val v) => v.truthy

/-- The store: each key holds a value together with the TTL (in seconds)
it was last written with.  Presence models liveness: an expired key reads
back as absent. -/
def Store : Type := String → Option (KVVal × Nat)

/-- The empty store. -/
def emptyStore : Store := fun _ => none

/-- Reading a key: `kv.get(key)`. -/
def kvGet (st : Store) (key : String) : Option KVVal :=
  (st key).map (·.1)

/-- Writing a key: `kv.set(key, value, ex ttl)`. -/
def kvSet (st : Store) (key : String) (v : KVVal) (ttl : Nat) : Store :=
  fun k => if k = key then some (v, ttl) else st k

/-- Key `` `room:${roomId}:exists` ``. -/
def existsKey (roomId : String) : String := "room:" ++ roomId ++ ":exists"

/-- Key `` `room:${roomId}:offer` ``. -/
def offerKey (roomId : String) : String := "room:" ++ roomId ++ ":offer"

/-- Key `` `room:${roomId}:answer` ``. -/
def answerKey (roomId : String) : String := "room:" ++ roomId ++ ":answer"

/-- Key `` `room:${roomId}` ``: the key of the historical combined record. -/
def legacyKey (roomId : String) : String := "room:" ++ roomId

/-- Key `` `room:${roomId}:${body.type}` ``: the key publish writes to. -/
def roleKey (roomId : String) (role : String) : String :=
  "room:" ++ roomId ++ ":" ++ role

/-- The value `"1"` that marks room existence (`kv.set(existsKey, "1", …)`);
the string `"1"` parses to the truthy number `1`. -/
def existsVal : KVVal := .str (.encodes (.prim true))

/-- The TTL window: `const ROOM_TTL_SECONDS = 300`. -/
def ROOM_TTL_SECONDS : Nat := 300

/-! ## `POST /api/signaling/create` (`src/app/api/signaling/create/route.ts`)

```ts
export async function POST() {
  let roomId = generateRoomId();
  const existsKey = `room:${roomId}:exists`;
  let attempt = 0;
  while ((await kv.get(existsKey)) && attempt < 5) {
    roomId = generateRoomId();
    attempt += 1;
  }
  await kv.set(`room:${roomId}:exists`, "1", { ex: ROOM_TTL_SECONDS });
  return Response.json({ roomId });
}
```

`cands k` is the result of the `(k+1)`-th call to `generateRoomId()`.  Note
that `existsKey` is a `const` computed from the first candidate and is
**not** rebound inside the loop; the embedding mirrors this. -/

/-- The `while` loop of the create route.  `ek` is the captured `existsKey`
(fixed at entry, exactly like the source's `const`), `roomId` the current
candidate, `attempt` the retry counter. -/
def createLoop (st : Store) (ek : String) (cands : Nat → String)
    (roomId : String) (attempt : Nat) : String :=
  if h : kvTruthy (kvGet st ek) = true ∧ attempt < 5 then
    createLoop st ek cands (cands (attempt + 1)) (attempt + 1)
  else
    roomId
termination_by 5 - attempt
decreasing_by omega

/-- The create route: run the retry loop, then write the `exists` marker
for the final candidate and return it. -/
def createRoom (cands : Nat → String) (st : Store) : String × Store :=
  let roomId := createLoop st (existsKey (cands 0)) cands (cands 0) 0
  (roomId, kvSet st (existsKey roomId) existsVal ROOM_TTL_SECONDS)

/-! ## `POST /api/signaling/[roomId]` — publish

```ts
export async function POST(request, { params }) {
  const roomId = params.roomId;
  if (!isValidRoomId(roomId)) return new Response("Invalid room", { status: 400 });
  const existsKey = `room:${roomId}:exists`;
  const exists = await kv.get(existsKey);
  if (!exists) return new Response("Room not found", { status: 404 });
  const body = (await request.json()) as SignalPostBody;
  if (body.type !== "offer" && body.type !== "answer")
    return new Response("Invalid payload", { status: 400 });
  if (!body.data || typeof body.data !== "object")
    return new Response("Invalid payload", { status: 400 });
  const key = `room:${roomId}:${body.type}`;
  await kv.set(key, JSON.stringify(body.data), { ex: ROOM_TTL_SECONDS });
  await kv.set(existsKey, "1", { ex: ROOM_TTL_SECONDS });
  return Response.json({ ok: true });
}
```
-/

/-- The parsed request body of the publish route: a `type` string and a
`data` value (`none` models a missing / `undefined` / JSON-`null` field). -/
structure SignalPostBody where
  type : String
  data : Option JVal

/-- Outcome of a publish request. -/
inductive PubResult where
  | invalidRoom      -- 400 "Invalid room"
  | roomNotFound     -- 404 "Room not found"
  | invalidPayload   -- 400 "Invalid payload"
  | ok               -- 200 { ok: true }

/-- Payload rejection test `!body.data || typeof body.data !== "object"`. -/
def badPayloadData : Option JVal → Bool
  | none => true
  | some v => !v.truthy || !v.isObject

/-- The publish route. Error paths leave the store untouched. -/
def publish (st : Store) (roomId : String) (body : SignalPostBody) :
    PubResult × Store :=
  if !isValidRoomId roomId then (.invalidRoom, st)
  else if !kvTruthy (kvGet st (existsKey roomId)) then (.roomNotFound, st)
  else if body.type != "offer" && body.type != "answer" then (.invalidPayload, st)
  else
    match body.data with
    | none => (.invalidPayload, st)
    | some v =>
      if !v.truthy || !v.isObject then (.invalidPayload, st)
      else
        let st₁ := kvSet st (roleKey roomId body.type)
          (.str (.encodes v)) ROOM_TTL_SECONDS
        let st₂ := kvSet st₁ (existsKey roomId) existsVal ROOM_TTL_SECONDS
        (.ok, st₂)

/-! ## `GET /api/signaling/poll/[roomId]` — poll (`src/unnamed/part_000`)

```ts
function safeParse<T>(value: unknown): T | null {
  if (!value) return null;
  if (typeof value === "string") {
    try { return JSON.parse(value) as T; } catch { return null; }
  }
  if (typeof value === "object") { return value as T; }
  return null;
}

export async function GET(_request, { params }) {
  const roomId = params.roomId;
  if (!isValidRoomId(roomId)) return new Response("Invalid room", { status: 400 });
  const existsKey = `room:${roomId}:exists`;
  const exists = await kv.get(existsKey);
  if (!exists) return new Response("Room not found", { status: 404 });
  const [offerValue, answerValue, legacyRoom] = await Promise.all([
    kv.get(`room:${roomId}:offer`),
    kv.get(`room:${roomId}:answer`),
    kv.get(`room:${roomId}`)
  ]);
  const legacy = safeParse<LegacyRoomRecord>(legacyRoom);
  const offer = safeParse(offerValue) ?? legacy?.offer ?? null;
  const answer = safeParse(answerValue) ?? legacy?.answer ?? null;
  return Response.json({ offer, answer });
}
```

`safeParse` returns `null` (`Option.none` here) exactly when the caller's
`??` falls through; a parsed falsy non-null value is `some (.prim false)`
and does not fall through, matching `??`'s null-only semantics. -/

/-- The helper `safeParse` applied to the result of `kv.get`. -/
def safeParse : Option KVVal → Option JVal
  | none => none
  | some (.str s) => if jstrTruthy s then parseJ s else none
  | some (.val v) =>
    if v.truthy then (if v.isObject then some v else none) else none

/-- Field access `legacy?.offer ?? null`: the `offer` field of an optional parsed value
(`undefined` on non-`legacy` objects and primitives). -/
def legacyOffer : Option JVal → Option JVal
  | some (.legacy o _) => o
  | _ => none

/-- Field access `legacy?.answer ?? null`. -/
def legacyAnswer : Option JVal → Option JVal
  | some (.legacy _ a) => a
  | _ => none

/-- Outcome of a poll request. -/
inductive PollResult where
  | invalidRoom                                    -- 400 "Invalid room"
  | roomNotFound                                   -- 404 "Room not found"
  | ok (offer : Option JVal) (answer : Option JVal) -- 200 { offer, answer }

/-- The poll route.  It is threaded through the store so that its frame
effect (no writes) is a statement, not a typing accident. -/
def poll (st : Store) (roomId : String) : PollResult × Store :=
  if !isValidRoomId roomId then (.invalidRoom, st)
  else if !kvTruthy (kvGet st (existsKey roomId)) then (.roomNotFound, st)
  else
    let offerValue := kvGet st (offerKey roomId)
    let answerValue := kvGet st (answerKey roomId)
    let legacyRoom := kvGet st (legacyKey roomId)
    let legacy := safeParse legacyRoom
    let offer := (safeParse offerValue).or (legacyOffer legacy)
    let answer := (safeParse answerValue).or (legacyAnswer legacy)
    (.ok offer answer, st)

/-! ## Chunked transfer protocol — sender (`PhoneClient.tsx`, `sendFile`)

```ts
const CHUNK_SIZE = 256 * 1024;
channel.send(JSON.stringify({ type: "meta", name, size, mime }));
let offset = 0;
while (offset < selectedFile.size) {
  await waitForBufferedLow(channel);
  const slice = selectedFile.slice(offset, offset + CHUNK_SIZE);
  const buffer = await slice.arrayBuffer();
  channel.send(buffer);
  offset += buffer.byteLength;
  setBytesSent(offset);
  ...
}
channel.send(JSON.stringify({ type: "done" }));
```
-/

/-- The frame size: `const CHUNK_SIZE = 256 * 1024`. -/
def CHUNK_SIZE : Nat := 256 * 1024

/-- A frame on the data channel: a parsed control message (`meta`, `done`,
`error`), a text frame that is not valid JSON, or a raw binary frame. -/
inductive Msg where
  | meta (name : String) (size : Nat) (mime : String)
  | done
  | errorMsg (message : String)
  | malformedText (tag : Nat)
  | data (chunk : List Nat)

/-- The slicing loop of `sendFile`: `file.slice(offset, offset + CHUNK_SIZE)`
repeatedly, until `offset` reaches the file size. -/
def sendChunks (l : List Nat) : List (List Nat) :=
  if h : l = [] then []
  else l.take CHUNK_SIZE :: sendChunks (l.drop CHUNK_SIZE)
termination_by l.length
decreasing_by
  simp only [List.length_drop, CHUNK_SIZE]
  have := List.length_pos.mpr h
  omega

/-- The full frame sequence `sendFile` emits for a file: one `meta`, the
binary chunks in order, one `done`. -/
def sendFileMsgs (name mime : String) (file : List Nat) : List Msg :=
  Msg.meta name file.length mime :: ((sendChunks file).map Msg.data ++ [Msg.done])

/-- The sender counter `bytesSent` (its `offset`) after `k` chunks have been sent. -/
def bytesSentAfter (file : List Nat) (k : Nat) : Nat :=
  (((sendChunks file).take k).map List.length).sum

/-! ## Chunked transfer protocol — receiver
(`computer/page.tsx`, `handleDataMessage` / `handleReceiveDone`) -/

/-- Threshold `message.size > 500 * 1024 * 1024`: the large-file warning threshold. -/
def LARGE_FILE_WARNING_BYTES : Nat := 500 * 1024 * 1024

/-- Receiver-side status values touched by the data handler. -/
inductive RStatus where
  | waiting
  | receiving
  | completed
  | error
deriving DecidableEq

/-- File metadata (`fileMeta`) as the receiver stores it. -/
structure FileMetaR where
  name : String
  size : Nat
  mime : String

/-- Outcome of the `showSaveFilePicker` capability at `meta` time:
the API is absent (`unavailable`), a writable sink was acquired
(`acquired`), or the picker threw (`refused`, the `catch` branch). -/
inductive PickerEnv where
  | unavailable
  | acquired
  | refused

/-- The receiver session state: `status`, `fileMeta`, the
`bytesReceived` counter, the in-memory chunk list (`chunksRef`), the
streaming sink contents (`writableRef`, `none` when no sink), the
materialized download (`downloadUrl` blob bytes), the surfaced error
message, and the large-file warning flag. -/
structure RecvState where
  status : RStatus
  fileMeta : Option FileMetaR
  bytesReceived : Nat
  chunks : List (List Nat)
  writable : Option (List (List Nat))
  download : Option (List Nat)
  errorMsg : Option String
  saveWarning : Bool

/-- The state when the transfer channel opens. -/
def initRecv : RecvState :=
  { status := .waiting, fileMeta := none, bytesReceived := 0, chunks := [],
    writable := none, download := none, errorMsg := none, saveWarning := false }

/-- Completion handler `handleReceiveDone`: close the sink if present; otherwise, if chunks
were accumulated and `fileMeta` is set, materialize the blob; then mark the
session completed. -/
def handleReceiveDone (s : RecvState) : RecvState :=
  let s₁ :=
    if s.writable.isNone && !s.chunks.isEmpty && s.fileMeta.isSome then
      { s with download := some s.chunks.flatten }
    else s
  { s₁ with status := .completed }

/-- One step of `handleDataMessage` for one incoming frame. -/
def recvStep (env : PickerEnv) (s : RecvState) (m : Msg) : RecvState :=
  match m with
  | .meta name size mime =>
    let s₁ := { s with fileMeta := some ⟨name, size, mime⟩, status := .receiving }
    -- `if (!writableRef.current && showSaveFilePicker) { try … } catch { … }`
    match env with
    | .unavailable => s₁
    | .acquired =>
      if s₁.writable.isNone then { s₁ with writable := some [] } else s₁
    | .refused =>
      if s₁.writable.isNone && decide (size > LARGE_FILE_WARNING_BYTES) then
        { s₁ with saveWarning := true }
      else s₁
  | .done => handleReceiveDone s
  | .errorMsg message => { s with errorMsg := some message, status := .error }
  | .malformedText _ =>
    { s with errorMsg := some "Unable to parse incoming message.", status := .error }
  | .data chunk =>
    match s.writable with
    | some ws =>
      { s with writable := some (ws ++ [chunk]),
               bytesReceived := s.bytesReceived + chunk.length }
    | none =>
      { s with chunks := s.chunks ++ [chunk],
               bytesReceived := s.bytesReceived + chunk.length }

/-- Run the receiver over a frame sequence from the channel-open state. -/
def recvRun (env : PickerEnv) (msgs : List Msg) : RecvState :=
  msgs.foldl (recvStep env) initRecv

/-- The byte sequence the receiver holds at the end: the streaming sink's
contents when one was acquired, the in-memory accumulation otherwise. -/
def reconstructedBytes (s : RecvState) : List Nat :=
  match s.writable with
  | some ws => ws.flatten
  | none => s.chunks.flatten

/-! ## Backpressure (`PhoneClient.tsx`, `waitForBufferedLow`)

```ts
const BUFFERED_HIGH_WATER_MARK = 16 * 1024 * 1024;
const BUFFERED_LOW_WATER_MARK = 4 * 1024 * 1024;
channel.bufferedAmountLowThreshold = BUFFERED_LOW_WATER_MARK;

const waitForBufferedLow = async (channel) => {
  if (channel.bufferedAmount <= BUFFERED_HIGH_WATER_MARK) return;
  await new Promise((resolve) => {
    const onLow = () => { …; resolve(); };            // "bufferedamountlow"
    const timeoutId = setTimeout(() => {              // 2000 ms watchdog
      … setInterval(() => {                            // poll every 200 ms
        if (channel.bufferedAmount <= BUFFERED_LOW_WATER_MARK) { …; resolve(); }
      }, 200);
    }, 2000);
    channel.addEventListener("bufferedamountlow", onLow, { once: true });
    …
  });
};
```

The transfer loop awaits `waitForBufferedLow` before every `channel.send`.
Modelled as a labelled transition system over the channel's buffered-amount
counter and the phase of the wait: `beforeWait` (about to call
`waitForBufferedLow` for the next frame), `waitingEvent` (suspended on the
`bufferedamountlow` event), `polling` (the 2000 ms watchdog fired, now
sampling every 200 ms), `sendReady` (the wait resolved).  The
`bufferedamountlow` event fires only once the counter has dropped to the
channel's threshold (the low-water mark); the transport drains the buffer
(the counter never rises except at a send, since this side is the only
writer). -/

/-- The high-water mark: `const BUFFERED_HIGH_WATER_MARK = 16 * 1024 * 1024`. -/
def BUFFERED_HIGH_WATER_MARK : Nat := 16 * 1024 * 1024

/-- The low-water mark: `const BUFFERED_LOW_WATER_MARK = 4 * 1024 * 1024`. -/
def BUFFERED_LOW_WATER_MARK : Nat := 4 * 1024 * 1024

/-- The 2000 ms watchdog delay before falling back to polling. -/
def BUFFERED_WATCHDOG_MS : Nat := 2000

/-- The 200 ms polling interval of the fallback. -/
def BUFFERED_POLL_INTERVAL_MS : Nat := 200

/-- Phase of the sender with respect to `waitForBufferedLow`. -/
inductive SendPhase where
  | beforeWait
  | waitingEvent
  | polling
  | sendReady
deriving DecidableEq

/-- Sender-side channel state: buffered-amount counter and wait phase. -/
structure SenderChan where
  buffered : Nat
  phase : SendPhase

/-- Transitions of the sender/transport system during the transfer loop. -/
inductive SenderStep : SenderChan → SenderChan → Prop where
  /-- The wait `waitForBufferedLow` returns immediately when the counter is at or
  below the high-water mark. -/
  | waitImmediate (b : Nat) (h : b ≤ BUFFERED_HIGH_WATER_MARK) :
      SenderStep ⟨b, .beforeWait⟩ ⟨b, .sendReady⟩
  /-- Otherwise it suspends on the `bufferedamountlow` event. -/
  | waitSuspend (b : Nat) (h : BUFFERED_HIGH_WATER_MARK < b) :
      SenderStep ⟨b, .beforeWait⟩ ⟨b, .waitingEvent⟩
  /-- The transport drains buffered data (the counter never rises without a
  send, this side being the only writer). -/
  | drain (b b' : Nat) (ph : SendPhase) (h : b' ≤ b) :
      SenderStep ⟨b, ph⟩ ⟨b', ph⟩
  /-- The `bufferedamountlow` event fires: the counter has reached the
  channel's `bufferedAmountLowThreshold`, the low-water mark. -/
  | lowEvent (b : Nat) (h : b ≤ BUFFERED_LOW_WATER_MARK) :
      SenderStep ⟨b, .waitingEvent⟩ ⟨b, .sendReady⟩
  /-- The `BUFFERED_WATCHDOG_MS` watchdog elapses without the event; fall
  back to polling every `BUFFERED_POLL_INTERVAL_MS`. -/
  | watchdog (b : Nat) :
      SenderStep ⟨b, .waitingEvent⟩ ⟨b, .polling⟩
  /-- A polling tick observes the counter at or below the low-water mark
  and resolves the wait. -/
  | pollLow (b : Nat) (h : b ≤ BUFFERED_LOW_WATER_MARK) :
      SenderStep ⟨b, .polling⟩ ⟨b, .sendReady⟩
  /-- A polling tick observes the counter still above the low-water mark
  and keeps polling. -/
  | pollHigh (b : Nat) (h : BUFFERED_LOW_WATER_MARK < b) :
      SenderStep ⟨b, .polling⟩ ⟨b, .polling⟩
  /-- Sending `channel.send(buffer)`: a frame of at most `CHUNK_SIZE` bytes is
  enqueued, and the loop returns to the next `waitForBufferedLow`. -/
  | sendFrame (b len : Nat) (h : len ≤ CHUNK_SIZE) :
      SenderStep ⟨b, .sendReady⟩ ⟨b + len, .beforeWait⟩

/-- The channel state when the transfer loop starts. -/
def senderInit : SenderChan := ⟨0, .beforeWait⟩

/-- Reachability in the backpressure transition system. -/
def SenderReachable (s : SenderChan) : Prop :=
  Relation.ReflTransGen SenderStep senderInit s

/-! ## Claims about the room identifier codec -/

/-- Claim C3, counterexample.  The claim says `validate(candidate)` is true
iff `candidate`, case-normalized to uppercase, is exactly 6 characters from
the 34-symbol alphabet.  The implemented regex `/^[A-Z0-9]{6}$/` accepts
`"IIIIII"` although `I` is outside the alphabet, and rejects `"ab12cd"`
although its uppercasing is inside the alphabet: the claimed equivalence
fails in both directions. -/
theorem roomId_validate_claim_cex :
    (isValidRoomId "IIIIII" = true ∧ specValidRoomId "IIIIII" = false) ∧
    (isValidRoomId "ab12cd" = false ∧ specValidRoomId "ab12cd" = true) := by
  decide

/-- Claim C3, amended.  `validate(candidate)` returns true iff `candidate`
consists of exactly 6 characters, each an ASCII uppercase letter `A`–`Z`
or a digit `0`–`9`; it performs no case normalization itself, and it
accepts the letters `I` and `O` even though the generator's 34-symbol
alphabet excludes them. -/
theorem roomId_validate_amended (s : String) :
    isValidRoomId s = true ↔
      s.length = 6 ∧
        ∀ c ∈ s.data, ('A' ≤ c ∧ c ≤ 'Z') ∨ ('0' ≤ c ∧ c ≤ '9') := by
  simp [isValidRoomId, List.all_eq_true]

/-- Witness for `roomId_validate_amended` at the concrete code
`"AB12CD"`. -/
theorem roomId_validate_amended_witness :
    isValidRoomId "AB12CD" = true ↔
      ("AB12CD" : String).length = 6 ∧
        ∀ c ∈ ("AB12CD" : String).data,
          ('A' ≤ c ∧ c ≤ 'Z') ∨ ('0' ≤ c ∧ c ≤ '9') :=
  roomId_validate_amended "AB12CD"

/-- Claim C9, counterexample.  The claim says each generated symbol is
uniform over the 34-symbol alphabet with probability exactly `1/34`.  With
the byte uniform over `0..255`, the symbol `'A'` (alphabet index 0) has
probability `8/256 ≠ 1/34`: `b % 34 = 0` holds for the 8 bytes
`0, 34, …, 238`, and `8 * 34 ≠ 256`. -/
theorem roomId_symbol_uniform_cex : symbolProb 'A' ≠ 1 / 34 := by
  have h : ((Finset.range 256).filter (fun b => roomSymbol b = 'A')).card = 8 := by
    decide
  rw [symbolProb, h]
  norm_num

/-- Claim C9, amended.  Because `256 = 7 * 34 + 18`, reducing a uniform byte
modulo 34 gives the first 18 alphabet symbols probability `8/256` each and
the remaining 16 symbols probability `7/256` each (the six positions remain
independent, each consuming its own byte of `crypto.getRandomValues`). -/
theorem roomId_symbol_distribution (j : Nat) (hj : j < 34) :
    symbolProb (ROOM_ALPHABET.data.getD j 'A') =
      if j < 18 then (8 : ℚ) / 256 else (7 : ℚ) / 256 := by
  have hcard :
      ((Finset.range 256).filter
          (fun b => roomSymbol b = ROOM_ALPHABET.data.getD j 'A')).card =
        if j < 18 then 8 else 7 := by
    interval_cases j <;> decide
  rw [symbolProb, hcard]
  by_cases h : j < 18 <;> simp [h]

/-- Witness for `roomId_symbol_distribution` at position `j = 0`. -/
theorem roomId_symbol_distribution_witness :
    symbolProb (ROOM_ALPHABET.data.getD 0 'A') =
      if 0 < 18 then (8 : ℚ) / 256 else (7 : ℚ) / 256 :=
  roomId_symbol_distribution 0 (by decide)

/-! ## Lemmas about the sender's slicing loop -/

lemma sendChunks_nil : sendChunks [] = [] := by
  rw [sendChunks]
  simp

lemma sendChunks_cons (l : List Nat) (h : l ≠ []) :
    sendChunks l = l.take CHUNK_SIZE :: sendChunks (l.drop CHUNK_SIZE) := by
  rw [sendChunks]
  simp [h]

lemma sendChunks_flatten (l : List Nat) : (sendChunks l).flatten = l := by
  have H : ∀ n (l : List Nat), l.length ≤ n → (sendChunks l).flatten = l := by
    intro n
    induction n with
    | zero =>
      intro l hl
      have hnil : l = [] := List.eq_nil_of_length_eq_zero (Nat.le_zero.mp hl)
      subst hnil
      simp [sendChunks_nil]
    | succ n ih =>
      intro l hl
      by_cases h : l = []
      · subst h; simp [sendChunks_nil]
      · rw [sendChunks_cons l h, List.flatten_cons,
          ih (l.drop CHUNK_SIZE)
            (by
              have := List.length_pos.mpr h
              simp only [List.length_drop, CHUNK_SIZE]
              omega)]
        exact List.take_append_drop _ _
  exact H l.length l le_rfl

lemma sendChunks_length (l : List Nat) :
    (sendChunks l).length = (l.length + CHUNK_SIZE - 1) / CHUNK_SIZE := by
  have H : ∀ n (l : List Nat), l.length ≤ n →
      (sendChunks l).length = (l.length + CHUNK_SIZE - 1) / CHUNK_SIZE := by
    intro n
    induction n with
    | zero =>
      intro l hl
      have hnil : l = [] := List.eq_nil_of_length_eq_zero (Nat.le_zero.mp hl)
      subst hnil
      simp only [sendChunks_nil, List.length_nil, CHUNK_SIZE]
    | succ n ih =>
      intro l hl
      by_cases h : l = []
      · subst h; simp only [sendChunks_nil, List.length_nil, CHUNK_SIZE]
      · have hpos := List.length_pos.mpr h
        rw [sendChunks_cons l h, List.length_cons,
          ih (l.drop CHUNK_SIZE)
            (by simp only [List.length_drop, CHUNK_SIZE]; omega)]
        simp only [List.length_drop, CHUNK_SIZE]
        omega
  exact H l.length l le_rfl

lemma sendChunks_sizes (l : List Nat) :
    (sendChunks l).all (fun c => c.length ≤ CHUNK_SIZE) = true := by
  have H : ∀ n (l : List Nat), l.length ≤ n →
      (sendChunks l).all (fun c => c.length ≤ CHUNK_SIZE) = true := by
    intro n
    induction n with
    | zero =>
      intro l hl
      have hnil : l = [] := List.eq_nil_of_length_eq_zero (Nat.le_zero.mp hl)
      subst hnil
      simp [sendChunks_nil]
    | succ n ih =>
      intro l hl
      by_cases h : l = []
      · subst h; simp [sendChunks_nil]
      · rw [sendChunks_cons l h]
        have hpos := List.length_pos.mpr h
        simp only [List.all_cons, Bool.and_eq_true, decide_eq_true_eq]
        refine ⟨by simp [List.length_take_le], ?_⟩
        exact ih (l.drop CHUNK_SIZE)
          (by simp only [List.length_drop, CHUNK_SIZE]; omega)
  exact H l.length l le_rfl

/-! ## Lemmas about the receiver -/

lemma recvStep_data_none (env : PickerEnv) (s : RecvState) (c : List Nat)
    (h : s.writable = none) :
    recvStep env s (.data c) =
      { s with chunks := s.chunks ++ [c],
               bytesReceived := s.bytesReceived + c.length } := by
  simp only [recvStep, h]

lemma recvStep_data_some (env : PickerEnv) (s : RecvState) (ws : List (List Nat))
    (c : List Nat) (h : s.writable = some ws) :
    recvStep env s (.data c) =
      { s with writable := some (ws ++ [c]),
               bytesReceived := s.bytesReceived + c.length } := by
  simp only [recvStep, h]

/-- Folding the in-memory receiver over a run of binary frames appends them
to `chunks` and advances the counter by their total length. -/
lemma foldl_data_none (env : PickerEnv) (L : List (List Nat)) :
    ∀ s : RecvState, s.writable = none →
      (L.map Msg.data).foldl (recvStep env) s =
        { s with chunks := s.chunks ++ L,
                 bytesReceived := s.bytesReceived + (L.map List.length).sum } := by
  induction L with
  | nil => intro s h; simp
  | cons c L ih =>
    intro s h
    simp only [List.map_cons, List.foldl_cons]
    rw [recvStep_data_none env s c h, ih _ (by simp [h])]
    simp [List.append_assoc]
    omega

/-- Folding the streaming receiver over a run of binary frames writes them
to the sink and advances the counter by their total length. -/
lemma foldl_data_some (env : PickerEnv) (L : List (List Nat)) :
    ∀ (s : RecvState) (ws : List (List Nat)), s.writable = some ws →
      (L.map Msg.data).foldl (recvStep env) s =
        { s with writable := some (ws ++ L),
                 bytesReceived := s.bytesReceived + (L.map List.length).sum } := by
  induction L with
  | nil => intro s ws h; simp [← h]
  | cons c L ih =>
    intro s ws h
    simp only [List.map_cons, List.foldl_cons]
    rw [recvStep_data_some env s ws c h, ih _ (ws ++ [c]) (by simp)]
    simp [List.append_assoc]
    omega

/-- The state after the `meta` frame, by picker environment. -/
lemma recvStep_meta (env : PickerEnv) (name mime : String) (size : Nat) :
    recvStep env initRecv (.meta name size mime) =
      { initRecv with
          fileMeta := some ⟨name, size, mime⟩
          status := .receiving
          writable := match env with | .acquired => some [] | _ => none
          saveWarning :=
            match env with
            | .refused => decide (size > LARGE_FILE_WARNING_BYTES)
            | _ => false } := by
  cases env <;> simp only [recvStep, initRecv] <;> split <;> simp_all

/-- Full characterization of a receiver run over the sender's frames:
counter, status, sink/in-memory contents. -/
lemma recvRun_sendFile (env : PickerEnv) (name mime : String) (file : List Nat) :
    (recvRun env (sendFileMsgs name mime file)).bytesReceived = file.length ∧
    (recvRun env (sendFileMsgs name mime file)).status = .completed ∧
    reconstructedBytes (recvRun env (sendFileMsgs name mime file)) = file := by
  have hsum : ((sendChunks file).map List.length).sum = file.length := by
    rw [← List.length_flatten, sendChunks_flatten]
  rw [recvRun, sendFileMsgs]
  simp only [List.foldl_cons, List.foldl_append]
  rw [recvStep_meta]
  cases env with
  | unavailable =>
    rw [foldl_data_none _ _ _ rfl]
    simp only [List.foldl_cons, List.foldl_nil, recvStep, handleReceiveDone,
      initRecv, hsum, reconstructedBytes]
    split <;> simp [sendChunks_flatten]
  | acquired =>
    rw [foldl_data_some _ _ _ [] rfl]
    simp only [List.foldl_cons, List.foldl_nil, recvStep, handleReceiveDone,
      initRecv, hsum, reconstructedBytes]
    split <;> simp [sendChunks_flatten]
  | refused =>
    rw [foldl_data_none _ _ _ rfl]
    simp only [List.foldl_cons, List.foldl_nil, recvStep, handleReceiveDone,
      initRecv, hsum, reconstructedBytes]
    split <;> simp [sendChunks_flatten]

/-- Frame discriminator: is this a `meta` control message? -/
def Msg.isMetaMsg : Msg → Bool
  | .meta _ _ _ => true
  | _ => false

/-- Frame discriminator: is this a `done` control message? -/
def Msg.isDoneMsg : Msg → Bool
  | .done => true
  | _ => false

/-- Extract the payload of a binary frame. -/
def Msg.dataChunk : Msg → Option (List Nat)
  | .data c => some c
  | _ => none

/-- Claim C1.  For every file sent with the chunked transfer protocol
(chunk size `CHUNK_SIZE = 256 KiB`): the sender emits exactly one `meta`
control message first, then `⌈S / C⌉` binary frames each of length at most
`C` whose concatenation equals the file bytes, then exactly one `done`
message last; and the receiver — streaming sink or in-memory fallback —
finishes with its transferred-byte counter equal to `S`, the reconstructed
byte sequence equal to the original, and status `completed`.  `file` is
universally quantified, covering `S = 0`, `S < C`, and `S` an exact
multiple of `C`. -/
theorem chunked_transfer_roundtrip (name mime : String) (file : List Nat)
    (env : PickerEnv) :
    (sendFileMsgs name mime file).head? = some (.meta name file.length mime) ∧
    (sendFileMsgs name mime file).getLast? = some .done ∧
    (sendFileMsgs name mime file).countP Msg.isMetaMsg = 1 ∧
    (sendFileMsgs name mime file).countP Msg.isDoneMsg = 1 ∧
    (sendFileMsgs name mime file).filterMap Msg.dataChunk = sendChunks file ∧
    (sendChunks file).length = (file.length + CHUNK_SIZE - 1) / CHUNK_SIZE ∧
    (sendChunks file).all (fun c => c.length ≤ CHUNK_SIZE) = true ∧
    (sendChunks file).flatten = file ∧
    (recvRun env (sendFileMsgs name mime file)).bytesReceived = file.length ∧
    reconstructedBytes (recvRun env (sendFileMsgs name mime file)) = file ∧
    (recvRun env (sendFileMsgs name mime file)).status = .completed := by
  obtain ⟨hb, hs, hr⟩ := recvRun_sendFile env name mime file
  refine ⟨rfl, ?_, ?_, ?_, ?_, sendChunks_length file, sendChunks_sizes file,
    sendChunks_flatten file, hb, hr, hs⟩
  · rw [sendFileMsgs, ← List.cons_append, List.getLast?_concat]
  · simp [sendFileMsgs, List.countP_cons, List.countP_append, List.countP_map,
      Function.comp_def, Msg.isMetaMsg, List.countP_eq_zero]
  · simp [sendFileMsgs, List.countP_cons, List.countP_append, List.countP_map,
      Function.comp_def, Msg.isDoneMsg, List.countP_eq_zero]
  · simp [sendFileMsgs, List.filterMap_cons, List.filterMap_append,
      List.filterMap_map, Function.comp_def, Msg.dataChunk,
      List.filterMap_some]

/-- Claim C2, counterexample.  The claim says a binary frame delivered before
`meta` or after `done` is treated as a `ProtocolViolation` — an error
surfaced to the session — and not processed as payload.  In the code,
a frame arriving before any `meta` is appended to the buffer and counted
(no error), and so is a frame arriving after `done` (the session even
stays `completed`). -/
theorem envelope_violation_cex :
    (let s := recvStep .unavailable initRecv (.data [0, 1, 2])
     s.status = .waiting ∧ s.errorMsg = none ∧ s.bytesReceived = 3 ∧
       s.chunks = [[0, 1, 2]]) ∧
    (let r := recvRun .unavailable
        [Msg.meta "a.txt" 0 "text/plain", Msg.done]
     let s := recvStep .unavailable r (.data [5])
     s.status = .completed ∧ s.errorMsg = none ∧ s.bytesReceived = 1 ∧
       s.chunks = [[5]]) := by
  constructor
  · exact ⟨rfl, rfl, rfl, rfl⟩
  · exact ⟨rfl, rfl, rfl, rfl⟩

/-- Claim C2, amended.  The receiver performs no envelope check on binary
frames: in every state — before `meta`, between `meta` and `done`, or
after `done` — a binary frame is processed as payload (appended to the
sink or the in-memory buffer and added to the transferred-byte counter),
leaving status and error message unchanged; no `ProtocolViolation` is
raised.  Only malformed control text produces an error. -/
theorem envelope_violation_amended (env : PickerEnv) (s : RecvState)
    (c : List Nat) :
    (recvStep env s (.data c)).status = s.status ∧
    (recvStep env s (.data c)).errorMsg = s.errorMsg ∧
    (recvStep env s (.data c)).bytesReceived = s.bytesReceived + c.length ∧
    ((recvStep env s (.data c)).chunks = s.chunks ∨
      (recvStep env s (.data c)).chunks = s.chunks ++ [c]) := by
  cases hw : s.writable with
  | none => rw [recvStep_data_none env s c hw]; exact ⟨rfl, rfl, rfl, .inr rfl⟩
  | some ws => rw [recvStep_data_some env s ws c hw]; exact ⟨rfl, rfl, rfl, .inl rfl⟩

/-! ## Monotonicity and boundedness of the transferred-byte counters -/

lemma recvStep_bytes_mono (env : PickerEnv) (s : RecvState) (m : Msg) :
    s.bytesReceived ≤ (recvStep env s m).bytesReceived := by
  cases m with
  | meta name size mime =>
    cases env <;> simp only [recvStep] <;> first | (split <;> simp) | simp
  | done =>
    simp only [recvStep, handleReceiveDone]
    split <;> simp
  | errorMsg message => simp [recvStep]
  | malformedText tag => simp [recvStep]
  | data c =>
    cases hw : s.writable with
    | none => rw [recvStep_data_none env s c hw]; simp
    | some ws => rw [recvStep_data_some env s ws c hw]; simp

lemma foldl_bytes_mono (env : PickerEnv) (msgs : List Msg) :
    ∀ s : RecvState, s.bytesReceived ≤ (msgs.foldl (recvStep env) s).bytesReceived := by
  induction msgs with
  | nil => intro s; simp
  | cons m msgs ih =>
    intro s
    calc s.bytesReceived ≤ (recvStep env s m).bytesReceived :=
          recvStep_bytes_mono env s m
      _ ≤ _ := ih (recvStep env s m)

/-- Claim C8.  Throughout every transfer session, on each peer, the
transferred-byte counter is monotonically non-decreasing and bounded by
the file size: (i) every receiver step can only increase `bytesReceived`;
(ii) after any prefix of the sender's frame sequence for a file of size
`S`, the receiver's counter is at most `S` (`= fileMeta.size`, the size
carried by `meta`); (iii) the sender's `bytesSent` (its `offset` after
each chunk) is non-decreasing and at most `S`.  The lower bound `0 ≤`
holds by the counters being natural numbers. -/
theorem bytes_transferred_invariant :
    (∀ (env : PickerEnv) (s : RecvState) (m : Msg),
      s.bytesReceived ≤ (recvStep env s m).bytesReceived) ∧
    (∀ (env : PickerEnv) (name mime : String) (file : List Nat) (k : Nat),
      (recvRun env ((sendFileMsgs name mime file).take k)).bytesReceived ≤
        file.length) ∧
    (∀ (file : List Nat) (k : Nat),
      bytesSentAfter file k ≤ bytesSentAfter file (k + 1) ∧
        bytesSentAfter file k ≤ file.length) := by
  refine ⟨recvStep_bytes_mono, ?_, ?_⟩
  · intro env name mime file k
    have hfull : (recvRun env (sendFileMsgs name mime file)).bytesReceived =
        file.length := (recvRun_sendFile env name mime file).1
    have hprefix : (recvRun env ((sendFileMsgs name mime file).take k)).bytesReceived ≤
        (recvRun env (sendFileMsgs name mime file)).bytesReceived := by
      conv_rhs => rw [← List.take_append_drop k (sendFileMsgs name mime file)]
      rw [recvRun, recvRun, List.foldl_append]
      exact foldl_bytes_mono env _ _
    omega
  · intro file k
    constructor
    · rw [bytesSentAfter, bytesSentAfter, List.map_take, List.map_take,
        List.take_succ]
      simp only [List.map_append, List.sum_append]
      exact Nat.le_add_right _ _
    · have h : (((sendChunks file).take k).map List.length).sum +
          (((sendChunks file).drop k).map List.length).sum =
          ((sendChunks file).map List.length).sum := by
        rw [← List.sum_append, ← List.map_append, List.take_append_drop]
      have htot : ((sendChunks file).map List.length).sum = file.length := by
        rw [← List.length_flatten, sendChunks_flatten]
      rw [bytesSentAfter]
      omega

/-! ## Backpressure claims -/

lemma sendReady_buffered_low (s : SenderChan) (h : SenderReachable s) :
    s.phase = .sendReady → s.buffered ≤ BUFFERED_HIGH_WATER_MARK := by
  induction h with
  | refl => intro h; simp [senderInit] at h
  | tail _ step ih =>
    cases step with
    | waitImmediate b hb => intro _; exact hb
    | waitSuspend b hb => intro h; simp at h
    | drain b b' ph hb =>
      intro h
      exact le_trans hb (ih h)
    | lowEvent b hb =>
      intro _
      exact le_trans hb (by rw [BUFFERED_LOW_WATER_MARK, BUFFERED_HIGH_WATER_MARK]; omega)
    | watchdog b => intro h; simp at h
    | pollLow b hb =>
      intro _
      exact le_trans hb (by rw [BUFFERED_LOW_WATER_MARK, BUFFERED_HIGH_WATER_MARK]; omega)
    | pollHigh b hb => intro h; simp at h
    | sendFrame b len hl => intro h; simp at h

/-- Claim C7.  Backpressure safety: (i) in every reachable sender state in
which the wait has resolved and a frame send can occur (`sendReady`), the
buffered-amount counter does not exceed the 16 MiB high-water mark — so no
binary frame is ever sent while the counter exceeds it; (ii) a sender
suspended on the buffered-amount-low event resumes only when the counter
is at or below the 4 MiB low-water mark; (iii) likewise for a sender in the
watchdog's 200 ms polling fallback: a poll tick resumes sending only when
it observes the counter at or below the low-water mark. -/
theorem backpressure_send_guard :
    (∀ s : SenderChan, SenderReachable s → s.phase = .sendReady →
      s.buffered ≤ BUFFERED_HIGH_WATER_MARK) ∧
    (∀ b b' : Nat, SenderStep ⟨b, .waitingEvent⟩ ⟨b', .sendReady⟩ →
      b ≤ BUFFERED_LOW_WATER_MARK) ∧
    (∀ b b' : Nat, SenderStep ⟨b, .polling⟩ ⟨b', .sendReady⟩ →
      b ≤ BUFFERED_LOW_WATER_MARK) := by
  refine ⟨sendReady_buffered_low, ?_, ?_⟩
  · intro b b' step
    cases step with
    | lowEvent _ hb => exact hb
  · intro b b' step
    cases step with
    | pollLow _ hb => exact hb

/-- Witness for `backpressure_send_guard`: the state with an empty buffer
whose wait resolved immediately is reachable, and the theorem bounds its
counter; a `lowEvent` resumption from a 0-byte buffer satisfies the
low-water bound. -/
theorem backpressure_send_guard_witness :
    (SenderChan.mk 0 .sendReady).buffered ≤ BUFFERED_HIGH_WATER_MARK ∧
      (0 : Nat) ≤ BUFFERED_LOW_WATER_MARK :=
  ⟨backpressure_send_guard.1 ⟨0, .sendReady⟩
      (Relation.ReflTransGen.single
        (SenderStep.waitImmediate 0 (by rw [BUFFERED_HIGH_WATER_MARK]; omega)))
      rfl,
    backpressure_send_guard.2.1 0 0
      (SenderStep.lowEvent 0 (by rw [BUFFERED_LOW_WATER_MARK]; omega))⟩

/-! ## Room creation: the stale `existsKey` in the retry loop -/

lemma createLoop_again (st : Store) (ek : String) (cands : Nat → String)
    (r : String) (attempt : Nat)
    (h1 : kvTruthy (kvGet st ek) = true) (h2 : attempt < 5) :
    createLoop st ek cands r attempt =
      createLoop st ek cands (cands (attempt + 1)) (attempt + 1) := by
  rw [createLoop]
  rw [dif_pos ⟨h1, h2⟩]

lemma createLoop_stop (st : Store) (ek : String) (cands : Nat → String)
    (r : String) (attempt : Nat)
    (h : ¬(kvTruthy (kvGet st ek) = true ∧ attempt < 5)) :
    createLoop st ek cands r attempt = r := by
  rw [createLoop]
  rw [dif_neg h]

/-- A concrete stream of candidate ids (the successive results of
`generateRoomId()`), pairwise distinct. -/
def demoCands : Nat → String
  | 0 => "AAAAAA"
  | 1 => "BBBBBB"
  | 2 => "CCCCCC"
  | 3 => "DDDDDD"
  | 4 => "EEEEEE"
  | _ => "FFFFFF"

/-- A store in which only the *first* candidate's room already exists. -/
def demoStore : Store :=
  kvSet emptyStore (existsKey (demoCands 0)) existsVal ROOM_TTL_SECONDS

/-- Claim C4, failing input.  The claim says the create route retries exactly
while the store holds a live `exists` marker for the *current* candidate.
In the code, `existsKey` is a `const` bound to the first candidate's key
and never rebound inside the loop.  On a store where only the first
candidate (`"AAAAAA"`) is taken: the loop re-checks `"AAAAAA"`'s key on
every iteration, burns all 5 retries although the second candidate
(`"BBBBBB"`) is free, and returns the 6th candidate — under the claim it
would have accepted `"BBBBBB"` after one retry.  (The final conjunct shows
the part of the claim the code does satisfy: the `exists` marker of the
returned id is written with the 300-second TTL.) -/
theorem createRoom_stale_key_eval :
    (createRoom demoCands demoStore).1 = demoCands 5 ∧
    demoCands 5 ≠ demoCands 1 ∧
    kvTruthy (kvGet demoStore (existsKey (demoCands 1))) = false ∧
    kvTruthy (kvGet demoStore (existsKey (demoCands 0))) = true ∧
    (createRoom demoCands demoStore).2 (existsKey (demoCands 5)) =
      some (existsVal, ROOM_TTL_SECONDS) := by
  have hek : kvTruthy (kvGet demoStore (existsKey (demoCands 0))) = true := by
    decide
  have hloop :
      createLoop demoStore (existsKey (demoCands 0)) demoCands (demoCands 0) 0 =
        demoCands 5 := by
    rw [createLoop_again _ _ _ _ _ hek (by omega),
      createLoop_again _ _ _ _ _ hek (by omega),
      createLoop_again _ _ _ _ _ hek (by omega),
      createLoop_again _ _ _ _ _ hek (by omega),
      createLoop_again _ _ _ _ _ hek (by omega),
      createLoop_stop _ _ _ _ _ (fun hc => absurd hc.2 (by omega))]
  refine ⟨?_, by decide, by decide, hek, ?_⟩
  · rw [createRoom]
    exact hloop
  · rw [createRoom]
    simp only [hloop]
    simp [kvSet]

/-! ## Publish -/

lemma roleKey_ne_existsKey (roomId ty : String)
    (h : ty = "offer" ∨ ty = "answer") : roleKey roomId ty ≠ existsKey roomId := by
  intro heq
  have hd := congrArg String.data heq
  simp only [roleKey, existsKey, String.data_append, List.append_assoc] at hd
  have h1 := List.append_cancel_left hd
  have h2 := List.append_cancel_left h1
  rcases h with h | h <;> subst h <;> exact absurd h2 (by decide)

/-- Claim C5.  For every publish request: an id failing validation yields
`InvalidRoom` (400) with the store untouched; a valid id with no live
`exists` marker yields `RoomNotFound` (404) with the store untouched;
otherwise, for `role ∈ {offer, answer}` and an object-valued description,
publish answers `ok`, writes the serialized description under the role's
key and refreshes the `exists` marker, both with the same 300-second TTL
window. -/
theorem publish_contract (st : Store) (roomId : String) (body : SignalPostBody) :
    (isValidRoomId roomId = false →
      publish st roomId body = (.invalidRoom, st)) ∧
    (isValidRoomId roomId = true →
      kvTruthy (kvGet st (existsKey roomId)) = false →
      publish st roomId body = (.roomNotFound, st)) ∧
    (∀ v : JVal,
      isValidRoomId roomId = true →
      kvTruthy (kvGet st (existsKey roomId)) = true →
      (body.type = "offer" ∨ body.type = "answer") →
      body.data = some v →
      v.truthy = true →
      v.isObject = true →
      (publish st roomId body).1 = .ok ∧
      (publish st roomId body).2 (roleKey roomId body.type) =
        some (.str (.encodes v), ROOM_TTL_SECONDS) ∧
      (publish st roomId body).2 (existsKey roomId) =
        some (existsVal, ROOM_TTL_SECONDS)) := by
  refine ⟨?_, ?_, ?_⟩
  · intro hv
    rw [publish, if_pos (by simp [hv])]
  · intro hv he
    rw [publish, if_neg (by simp [hv]), if_pos (by simp [he])]
  · intro v hv he hty hdata htruthy hobj
    have hne : roleKey roomId body.type ≠ existsKey roomId :=
      roleKey_ne_existsKey roomId body.type hty
    have hty' : (body.type != "offer" && body.type != "answer") = false := by
      rcases hty with h | h <;> simp [h]
    have hcond : (!v.truthy || !v.isObject) = false := by
      simp [htruthy, hobj]
    rw [publish, if_neg (by simp [hv]), if_neg (by simp [he]),
      if_neg (by simp [hty']), hdata]
    simp only [hcond, Bool.false_eq_true, if_false]
    refine ⟨by trivial, ?_, ?_⟩
    · simp only [kvSet, if_neg hne]
      simp
    · simp [kvSet]

/-- Witness for `publish_contract`: a concrete store holding the `exists`
marker for `"AB12CD"`, and a concrete offer publication. -/
theorem publish_contract_witness :
    (publish (kvSet emptyStore (existsKey "AB12CD") existsVal ROOM_TTL_SECONDS)
        "AB12CD" ⟨"offer", some (.desc "offer" "sdp-text")⟩).1 = .ok ∧
    (publish (kvSet emptyStore (existsKey "AB12CD") existsVal ROOM_TTL_SECONDS)
        "AB12CD" ⟨"offer", some (.desc "offer" "sdp-text")⟩).2
        (roleKey "AB12CD" "offer") =
      some (.str (.encodes (.desc "offer" "sdp-text")), ROOM_TTL_SECONDS) ∧
    (publish (kvSet emptyStore (existsKey "AB12CD") existsVal ROOM_TTL_SECONDS)
        "AB12CD" ⟨"offer", some (.desc "offer" "sdp-text")⟩).2
        (existsKey "AB12CD") = some (existsVal, ROOM_TTL_SECONDS) :=
  (publish_contract
      (kvSet emptyStore (existsKey "AB12CD") existsVal ROOM_TTL_SECONDS)
      "AB12CD" ⟨"offer", some (.desc "offer" "sdp-text")⟩).2.2
    (.desc "offer" "sdp-text") (by decide) (by decide) (.inl rfl) rfl rfl rfl

/-! ## Poll -/

/-- On a valid id of a live room, poll answers 200 with the offer/answer
fields computed by `safeParse` plus the legacy fallback. -/
lemma poll_ok (st : Store) (roomId : String)
    (hv : isValidRoomId roomId = true)
    (he : kvTruthy (kvGet st (existsKey roomId)) = true) :
    (poll st roomId).1 =
      .ok ((safeParse (kvGet st (offerKey roomId))).or
            (legacyOffer (safeParse (kvGet st (legacyKey roomId)))))
          ((safeParse (kvGet st (answerKey roomId))).or
            (legacyAnswer (safeParse (kvGet st (legacyKey roomId))))) := by
  rw [poll, if_neg (by simp [hv]), if_neg (by simp [he])]

/-- Claim C6.  (i) If the dedicated offer/answer keys are empty and the
legacy combined record parses to `{offer, answer}`, poll returns those
fields — identical to what the dedicated-key path returns for the same
descriptions.  (ii) A dedicated value that fails to parse is reported as
the field being absent (`null`).  (iii) A legacy combined value that fails
to parse is likewise reported as both fields absent.  (iv) So are
unparseable dedicated and legacy values together.  (v) On a live room,
poll never answers with an error response, whatever the store holds. -/
theorem poll_legacy_and_parse_failures :
    (∀ (st₁ st₂ : Store) (roomId : String) (ov av : JVal),
      isValidRoomId roomId = true →
      kvTruthy (kvGet st₁ (existsKey roomId)) = true →
      kvTruthy (kvGet st₂ (existsKey roomId)) = true →
      kvGet st₁ (offerKey roomId) = some (.str (.encodes ov)) →
      kvGet st₁ (answerKey roomId) = some (.str (.encodes av)) →
      kvGet st₂ (offerKey roomId) = none →
      kvGet st₂ (answerKey roomId) = none →
      kvGet st₂ (legacyKey roomId) =
        some (.str (.encodes (.legacy (some ov) (some av)))) →
      (poll st₂ roomId).1 = (poll st₁ roomId).1 ∧
        (poll st₂ roomId).1 = .ok (some ov) (some av)) ∧
    (∀ (st : Store) (roomId : String) (tag : Nat),
      isValidRoomId roomId = true →
      kvTruthy (kvGet st (existsKey roomId)) = true →
      kvGet st (offerKey roomId) = some (.str (.unparsable tag true)) →
      kvGet st (answerKey roomId) = none →
      kvGet st (legacyKey roomId) = none →
      (poll st roomId).1 = .ok none none) ∧
    (∀ (st : Store) (roomId : String) (tag : Nat) (ne : Bool),
      isValidRoomId roomId = true →
      kvTruthy (kvGet st (existsKey roomId)) = true →
      kvGet st (offerKey roomId) = none →
      kvGet st (answerKey roomId) = none →
      kvGet st (legacyKey roomId) = some (.str (.unparsable tag ne)) →
      (poll st roomId).1 = .ok none none) ∧
    (∀ (st : Store) (roomId : String) (t₁ t₂ t₃ : Nat) (n₁ n₂ n₃ : Bool),
      isValidRoomId roomId = true →
      kvTruthy (kvGet st (existsKey roomId)) = true →
      kvGet st (offerKey roomId) = some (.str (.unparsable t₁ n₁)) →
      kvGet st (answerKey roomId) = some (.str (.unparsable t₂ n₂)) →
      kvGet st (legacyKey roomId) = some (.str (.unparsable t₃ n₃)) →
      (poll st roomId).1 = .ok none none) ∧
    (∀ (st : Store) (roomId : String),
      isValidRoomId roomId = true →
      kvTruthy (kvGet st (existsKey roomId)) = true →
      ∃ o a, (poll st roomId).1 = .ok o a) := by
  refine ⟨?_, ?_, ?_, ?_, ?_⟩
  · intro st₁ st₂ roomId ov av hv he₁ he₂ ho₁ ha₁ ho₂ ha₂ hl₂
    rw [poll_ok st₁ roomId hv he₁, poll_ok st₂ roomId hv he₂,
      ho₁, ha₁, ho₂, ha₂, hl₂]
    constructor <;>
      simp [safeParse, parseJ, jstrTruthy, legacyOffer, legacyAnswer]
  · intro st roomId tag hv he ho ha hl
    rw [poll_ok st roomId hv he, ho, ha, hl]
    simp [safeParse, parseJ, jstrTruthy, legacyOffer, legacyAnswer]
  · intro st roomId tag ne hv he ho ha hl
    rw [poll_ok st roomId hv he, ho, ha, hl]
    simp [safeParse, parseJ, jstrTruthy, legacyOffer, legacyAnswer]
  · intro st roomId t₁ t₂ t₃ n₁ n₂ n₃ hv he ho ha hl
    rw [poll_ok st roomId hv he, ho, ha, hl]
    simp [safeParse, parseJ, jstrTruthy, legacyOffer, legacyAnswer]
  · intro st roomId hv he
    exact ⟨_, _, poll_ok st roomId hv he⟩

/-- A concrete store holding a live room for `"AB12CD"` in the dedicated
offer/answer shape. -/
def dedicatedDemoStore : Store :=
  kvSet
    (kvSet
      (kvSet emptyStore (existsKey "AB12CD") existsVal ROOM_TTL_SECONDS)
      (offerKey "AB12CD") (.str (.encodes (.desc "offer" "o-sdp")))
      ROOM_TTL_SECONDS)
    (answerKey "AB12CD") (.str (.encodes (.desc "answer" "a-sdp")))
    ROOM_TTL_SECONDS

/-- The same room stored in the historical combined-record shape: only the
legacy key, no dedicated offer/answer keys. -/
def legacyDemoStore : Store :=
  kvSet
    (kvSet emptyStore (existsKey "AB12CD") existsVal ROOM_TTL_SECONDS)
    (legacyKey "AB12CD")
    (.str (.encodes (.legacy (some (.desc "offer" "o-sdp"))
      (some (.desc "answer" "a-sdp")))))
    ROOM_TTL_SECONDS

/-- A live room for `"AB12CD"` whose only stored value is a legacy
combined record that does not parse. -/
def unparsableLegacyDemoStore : Store :=
  kvSet
    (kvSet emptyStore (existsKey "AB12CD") existsVal ROOM_TTL_SECONDS)
    (legacyKey "AB12CD") (.str (.unparsable 0 true)) ROOM_TTL_SECONDS

/-- Witness for `poll_legacy_and_parse_failures`: on the concrete stores
above, polling the legacy store returns exactly what polling the dedicated
store returns, and polling the store with an unparseable legacy record
reports both fields absent. -/
theorem poll_legacy_and_parse_failures_witness :
    ((poll legacyDemoStore "AB12CD").1 = (poll dedicatedDemoStore "AB12CD").1 ∧
      (poll legacyDemoStore "AB12CD").1 =
        .ok (some (.desc "offer" "o-sdp")) (some (.desc "answer" "a-sdp"))) ∧
      (poll unparsableLegacyDemoStore "AB12CD").1 = .ok none none :=
  ⟨poll_legacy_and_parse_failures.1 dedicatedDemoStore legacyDemoStore
      "AB12CD" (.desc "offer" "o-sdp") (.desc "answer" "a-sdp")
      (by decide) rfl rfl rfl rfl rfl rfl rfl,
    poll_legacy_and_parse_failures.2.2.1 unparsableLegacyDemoStore
      "AB12CD" 0 true (by decide) rfl rfl rfl rfl⟩

/-- Claim C10.  Poll is effect-free on the store: for every store state and
every id — valid or not, live or not — the store poll leaves behind is the
one it was given.  It performs no write and refreshes no TTL; among the
three signaling operations only `publish` and `createRoom` call `kv.set`. -/
theorem poll_store_frame (st : Store) (roomId : String) :
    (poll st roomId).2 = st := by
  rw [poll]
  split
  · rfl
  · split <;> rfl

end TransferFile
